import Mathlib

/-!
Shallow embedding of the otel-cf-workers instrumentation layer
(src/instrumentation/entrypoint.ts, src/instrumentation/rpc-target.ts) together
with spec-modelled stand-ins for the parts of the repository whose sources are
not present (src/wrap.ts, src/config.ts, src/metricreader.ts — only their tests
and callers are available).

Modelling conventions:
- A span handle is a record of its name, kind, the attributes supplied at
  `startActiveSpan` time, and the ordered list of mutations (`setStatus`,
  `setAttributes`, `recordException`, `end`) applied to it before it is handed
  to the tracing backend.  Sealed spans are appended to a process-wide log.
- The module-level `cold_start` flag of entrypoint.ts and the span log form the
  process state `TraceState`, threaded explicitly.
- A handler that may throw is a function into `Except ε _`; re-throwing the
  identical error is equality of the `Except.error` payload.
- Attribute collections are association lists; `Object.assign` is modelled by
  `assignAttrs`, which overwrites an existing key and appends a fresh one.
- The ambient OpenTelemetry context (`api_context.with`) is modelled by passing
  the `Context` value to the wrapped function: a function body "runs inside"
  a context exactly when it is applied to that context.
- The attribute-extraction helpers of src/instrumentation/fetch.ts
  (`gatherRequestAttributes`, `gatherIncomingCfAttributes`,
  `gatherResponseAttributes`) are external collaborators and appear as
  function parameters.
-/

/-- Scalar attribute values (string / boolean / number). -/
inductive AttrValue where
  | str (s : String)
  | bool (b : Bool)
  | nat (n : Nat)
  deriving DecidableEq, Repr

/-- One span attribute: key paired with a scalar value. -/
abbrev Attr := String × AttrValue

/-- `SemanticAttributes.FAAS_TRIGGER`. -/
def FAAS_TRIGGER : String := "faas.trigger"

/-- `SemanticAttributes.FAAS_COLDSTART`. -/
def FAAS_COLDSTART : String := "faas.coldstart"

/-- Overwrite-or-append a single key, as one step of `Object.assign`. -/
def setAttrList : List Attr → String → AttrValue → List Attr
  | [], k, v => [(k, v)]
  | (k', v') :: rest, k, v =>
      if k' = k then (k, v) :: rest else (k', v') :: setAttrList rest k v

/-- `Object.assign(base, upd)` on flat attribute maps. -/
def assignAttrs (base upd : List Attr) : List Attr :=
  upd.foldl (fun acc p => setAttrList acc p.1 p.2) base

/-- First value stored under key `k`. -/
def findAttr (k : String) : List Attr → Option AttrValue
  | [] => none
  | (k', v) :: rest => if k' = k then some v else findAttr k rest

/-- Whether an attribute list mentions key `k`. -/
def hasAttrKey (l : List Attr) (k : String) : Bool :=
  l.any (fun p => p.1 == k)

/-- `SpanStatusCode` of @opentelemetry/api (UNSET / OK / ERROR). -/
inductive SpanStatusCode where
  | unset
  | ok
  | error
  deriving DecidableEq, Repr

/-- `SpanKind` values used by the source (`SpanKind.SERVER` and internal). -/
inductive SpanKind where
  | server
  | internal
  deriving DecidableEq, Repr

/-- A mutation applied to an open span handle, in program order. -/
inductive SpanOp (ε : Type) where
  | setStatus (code : SpanStatusCode)
  | setAttributes (attrs : List Attr)
  | recordException (e : ε)
  | endSpan
  deriving DecidableEq, Repr

/-- A span handle: creation-time data plus the ordered mutations.
`ε` is the type of thrown errors (arbitrary JS values). -/
structure SpanData (ε : Type) where
  name : String
  kind : SpanKind
  initialAttributes : List Attr
  ops : List (SpanOp ε)
  deriving DecidableEq, Repr

/-- `span.setStatus({code})`. -/
def SpanData.setStatus (sp : SpanData ε) (code : SpanStatusCode) : SpanData ε :=
  { sp with ops := sp.ops ++ [.setStatus code] }

/-- `span.setAttributes(attrs)`. -/
def SpanData.setAttributes (sp : SpanData ε) (attrs : List Attr) : SpanData ε :=
  { sp with ops := sp.ops ++ [.setAttributes attrs] }

/-- `span.recordException(e)`. -/
def SpanData.recordException (sp : SpanData ε) (e : ε) : SpanData ε :=
  { sp with ops := sp.ops ++ [.recordException e] }

/-- `span.end()`. -/
def SpanData.endSpan (sp : SpanData ε) : SpanData ε :=
  { sp with ops := sp.ops ++ [.endSpan] }

/-- How many times the span was sealed. -/
def SpanData.sealCount (sp : SpanData ε) : Nat :=
  sp.ops.countP (fun op => match op with | .endSpan => true | _ => false)

/-- Terminal status: the last `setStatus` wins, `unset` if none was applied. -/
def SpanData.finalStatus (sp : SpanData ε) : SpanStatusCode :=
  sp.ops.foldl (fun st op => match op with | .setStatus c => c | _ => st) .unset

/-- The exceptions recorded on the span, in order. -/
def SpanData.exceptions (sp : SpanData ε) : List ε :=
  sp.ops.filterMap (fun op => match op with | .recordException e => some e | _ => none)

/-- Process-wide instrumentation state: the module-level `cold_start` flag of
entrypoint.ts and the log of spans handed to the tracing backend. -/
structure TraceState (ε : Type) where
  cold_start : Bool
  spans : List (SpanData ε)
  deriving DecidableEq, Repr

/-- State at process start (`let cold_start = true`, nothing exported). -/
def initialTraceState : TraceState ε := { cold_start := true, spans := [] }

/-- Hand a sealed span to the tracing backend. -/
def TraceState.pushSpan (s : TraceState ε) (sp : SpanData ε) : TraceState ε :=
  { s with spans := s.spans ++ [sp] }

/-- A `Response`: the source reads only its `ok` flag (and logs `status`). -/
structure Response where
  ok : Bool
  status : Nat
  deriving DecidableEq, Repr

/-- `executeEntrypointFetch` (entrypoint.ts lines 18-63): build the
trigger/cold-start attributes, clear the module-level `cold_start` flag, merge
the request-derived attributes, open the server span, run the handler; on
success set OK status only when `response.ok`, attach response attributes and
seal; on throw record the exception, set error status, seal, and re-throw. -/
def executeEntrypointFetch {ρ : Type}
    (gatherRequestAttributes gatherIncomingCfAttributes : ρ → List Attr)
    (gatherResponseAttributes : Response → List Attr)
    (fetchFn : ρ → Except ε Response) (request : ρ)
    (s : TraceState ε) : Except ε Response × TraceState ε :=
  let attributes : List Attr :=
    [(FAAS_TRIGGER, .str "http"), (FAAS_COLDSTART, .bool s.cold_start)]
  let s := { s with cold_start := false }
  let attributes := assignAttrs attributes (gatherRequestAttributes request)
  let attributes := assignAttrs attributes (gatherIncomingCfAttributes request)
  let span : SpanData ε :=
    { name := "Entrypoint Fetch", kind := .server,
      initialAttributes := attributes, ops := [] }
  match fetchFn request with
  | .ok response =>
      let span := if response.ok then span.setStatus .ok else span
      let span := span.setAttributes (gatherResponseAttributes response)
      let span := span.endSpan
      (.ok response, s.pushSpan span)
  | .error e =>
      let span := span.recordException e
      let span := span.setStatus .error
      let span := span.endSpan
      (.error e, s.pushSpan span)

/-- C1: For every inbound fetch call whose handler returns a response (does not
throw), exactly one span is opened and exactly one span is sealed; its status is
OK only if `response.ok`, and the response-derived attributes are attached after
the handler completes and before the span is sealed. -/
theorem executeEntrypointFetch_success_span {ε ρ : Type}
    (gReq gCf : ρ → List Attr) (gResp : Response → List Attr)
    (fetchFn : ρ → Except ε Response) (request : ρ) (s : TraceState ε)
    (response : Response) (h : fetchFn request = .ok response) :
    ∃ sp : SpanData ε,
      (executeEntrypointFetch gReq gCf gResp fetchFn request s).2.spans
          = s.spans ++ [sp]
      ∧ (executeEntrypointFetch gReq gCf gResp fetchFn request s).1 = .ok response
      ∧ sp.ops = (if response.ok then [SpanOp.setStatus .ok] else [])
          ++ [SpanOp.setAttributes (gResp response), SpanOp.endSpan]
      ∧ sp.sealCount = 1
      ∧ (sp.finalStatus = .ok ↔ response.ok = true) := by
  refine ⟨{ name := "Entrypoint Fetch", kind := .server,
            initialAttributes := assignAttrs (assignAttrs
              [(FAAS_TRIGGER, .str "http"), (FAAS_COLDSTART, .bool s.cold_start)]
              (gReq request)) (gCf request),
            ops := (if response.ok then [SpanOp.setStatus .ok] else [])
              ++ [SpanOp.setAttributes (gResp response), SpanOp.endSpan] },
         ?_, ?_, ?_, ?_, ?_⟩ <;>
    cases hok : response.ok <;>
      simp [executeEntrypointFetch, h, hok, TraceState.pushSpan,
        SpanData.setStatus, SpanData.setAttributes, SpanData.endSpan,
        SpanData.sealCount, SpanData.finalStatus, List.countP_cons, List.countP_nil]

/-- Closed witness for `executeEntrypointFetch_success_span`. -/
theorem executeEntrypointFetch_success_span_witness :
    ∃ sp : SpanData String,
      (executeEntrypointFetch (ε := String) (ρ := Unit)
          (fun _ => []) (fun _ => []) (fun _ => [])
          (fun _ => .ok ⟨true, 200⟩) () initialTraceState).2.spans
          = (initialTraceState (ε := String)).spans ++ [sp]
      ∧ (executeEntrypointFetch (ε := String) (ρ := Unit)
          (fun _ => []) (fun _ => []) (fun _ => [])
          (fun _ => .ok ⟨true, 200⟩) () initialTraceState).1
          = .ok ⟨true, 200⟩
      ∧ sp.ops = (if (Response.mk true 200).ok then [SpanOp.setStatus .ok] else [])
          ++ [SpanOp.setAttributes [], SpanOp.endSpan]
      ∧ sp.sealCount = 1
      ∧ (sp.finalStatus = .ok ↔ (Response.mk true 200).ok = true) :=
  executeEntrypointFetch_success_span (fun _ => []) (fun _ => []) (fun _ => [])
    (fun _ => .ok ⟨true, 200⟩) () initialTraceState ⟨true, 200⟩ rfl

/-- `executeEntrypointRpcMethod` (entrypoint.ts lines 65-104): open a server
span named after the method with trigger/method/argument-count attributes, run
the method; on success set OK status and seal; on throw record the exception,
set error status, seal, and re-throw.  `υ` is the type of JS argument and
return values. -/
def executeEntrypointRpcMethod {υ : Type}
    (methodFn : List υ → Except ε υ) (methodName : String)
    (args : List υ) (s : TraceState ε) : Except ε υ × TraceState ε :=
  let attributes : List Attr :=
    [(FAAS_TRIGGER, .str "other"),
     ("method.name", .str methodName),
     ("method.args_count", .nat args.length),
     ("rpc.method", .str methodName)]
  let span : SpanData ε :=
    { name := "RPC Method " ++ methodName, kind := .server,
      initialAttributes := attributes, ops := [] }
  match methodFn args with
  | .ok result =>
      let span := span.setStatus .ok
      let span := span.endSpan
      (.ok result, s.pushSpan span)
  | .error e =>
      let span := span.recordException e
      let span := span.setStatus .error
      let span := span.endSpan
      (.error e, s.pushSpan span)

/-- C2: For every wrapped call (inbound fetch or RPC method) whose handler
throws, the span is sealed with error status and the thrown error recorded as
its exception, and the identical error is re-thrown to the caller. -/
theorem wrappedCall_error_span {ε ρ υ : Type}
    (gReq gCf : ρ → List Attr) (gResp : Response → List Attr)
    (fetchFn : ρ → Except ε Response) (request : ρ)
    (methodFn : List υ → Except ε υ) (methodName : String) (args : List υ)
    (s t : TraceState ε) (e e' : ε) :
    (fetchFn request = .error e →
      ∃ sp : SpanData ε,
        (executeEntrypointFetch gReq gCf gResp fetchFn request s).2.spans
            = s.spans ++ [sp]
        ∧ (executeEntrypointFetch gReq gCf gResp fetchFn request s).1 = .error e
        ∧ sp.exceptions = [e] ∧ sp.finalStatus = .error ∧ sp.sealCount = 1)
    ∧ (methodFn args = .error e' →
      ∃ sp : SpanData ε,
        (executeEntrypointRpcMethod methodFn methodName args t).2.spans
            = t.spans ++ [sp]
        ∧ (executeEntrypointRpcMethod methodFn methodName args t).1 = .error e'
        ∧ sp.exceptions = [e'] ∧ sp.finalStatus = .error ∧ sp.sealCount = 1) := by
  constructor
  · intro h
    refine ⟨{ name := "Entrypoint Fetch", kind := .server,
              initialAttributes := assignAttrs (assignAttrs
                [(FAAS_TRIGGER, .str "http"), (FAAS_COLDSTART, .bool s.cold_start)]
                (gReq request)) (gCf request),
              ops := [SpanOp.recordException e, SpanOp.setStatus .error,
                      SpanOp.endSpan] }, ?_, ?_, ?_, ?_, ?_⟩ <;>
      simp [executeEntrypointFetch, h, TraceState.pushSpan,
        SpanData.recordException, SpanData.setStatus, SpanData.endSpan,
        SpanData.exceptions, SpanData.sealCount, SpanData.finalStatus,
        List.countP_cons, List.countP_nil]
  · intro h
    refine ⟨{ name := "RPC Method " ++ methodName, kind := .server,
              initialAttributes :=
                [(FAAS_TRIGGER, .str "other"),
                 ("method.name", .str methodName),
                 ("method.args_count", .nat args.length),
                 ("rpc.method", .str methodName)],
              ops := [SpanOp.recordException e', SpanOp.setStatus .error,
                      SpanOp.endSpan] }, ?_, ?_, ?_, ?_, ?_⟩ <;>
      simp [executeEntrypointRpcMethod, h, TraceState.pushSpan,
        SpanData.recordException, SpanData.setStatus, SpanData.endSpan,
        SpanData.exceptions, SpanData.sealCount, SpanData.finalStatus,
        List.countP_cons, List.countP_nil]

/-- Closed witness for `wrappedCall_error_span`: a fetch handler and an RPC
method that both throw the string error "boom". -/
theorem wrappedCall_error_span_witness :
    (∃ sp : SpanData String,
      (executeEntrypointFetch (ε := String) (ρ := Unit)
          (fun _ => []) (fun _ => []) (fun _ => [])
          (fun _ => .error "boom") () initialTraceState).2.spans
          = (initialTraceState (ε := String)).spans ++ [sp]
      ∧ (executeEntrypointFetch (ε := String) (ρ := Unit)
          (fun _ => []) (fun _ => []) (fun _ => [])
          (fun _ => .error "boom") () initialTraceState).1 = .error "boom"
      ∧ sp.exceptions = ["boom"] ∧ sp.finalStatus = .error ∧ sp.sealCount = 1)
    ∧ (∃ sp : SpanData String,
      (executeEntrypointRpcMethod (ε := String) (υ := Nat)
          (fun _ => .error "boom") "m" [] initialTraceState).2.spans
          = (initialTraceState (ε := String)).spans ++ [sp]
      ∧ (executeEntrypointRpcMethod (ε := String) (υ := Nat)
          (fun _ => .error "boom") "m" [] initialTraceState).1 = .error "boom"
      ∧ sp.exceptions = ["boom"] ∧ sp.finalStatus = .error ∧ sp.sealCount = 1) :=
  ⟨(wrappedCall_error_span (ε := String) (ρ := Unit) (υ := Nat)
      (fun _ => []) (fun _ => []) (fun _ => [])
      (fun _ => .error "boom") () (fun _ => .error "boom") "m" []
      initialTraceState initialTraceState "boom" "boom").1 rfl,
   (wrappedCall_error_span (ε := String) (ρ := Unit) (υ := Nat)
      (fun _ => []) (fun _ => []) (fun _ => [])
      (fun _ => .error "boom") () (fun _ => .error "boom") "m" []
      initialTraceState initialTraceState "boom" "boom").2 rfl⟩

/-- Updating a different key leaves a lookup unchanged. -/
theorem findAttr_setAttrList_ne (l : List Attr) (k k' : String) (v : AttrValue)
    (h : k' ≠ k) : findAttr k (setAttrList l k' v) = findAttr k l := by
  induction l with
  | nil => simp [setAttrList, findAttr, h]
  | cons p rest ih =>
      obtain ⟨pk, pv⟩ := p
      by_cases hpk : pk = k'
      · subst hpk
        simp [setAttrList, findAttr, h]
      · simp only [setAttrList, findAttr, if_neg hpk]
        by_cases hk : pk = k
        · simp [findAttr, hk]
        · simp [findAttr, hk, ih]

/-- `Object.assign` with an update map that never mentions `k` leaves the
lookup of `k` unchanged. -/
theorem findAttr_assignAttrs (upd : List Attr) (base : List Attr) (k : String)
    (h : hasAttrKey upd k = false) :
    findAttr k (assignAttrs base upd) = findAttr k base := by
  induction upd generalizing base with
  | nil => simp [assignAttrs]
  | cons p rest ih =>
      simp only [hasAttrKey, List.any_cons, Bool.or_eq_false_iff, beq_eq_false_iff_ne] at h
      have hrest : hasAttrKey rest k = false := by
        simpa [hasAttrKey] using h.2
      simp only [assignAttrs, List.foldl_cons]
      have := ih (setAttrList base p.1 p.2) hrest
      simp only [assignAttrs] at this
      rw [this, findAttr_setAttrList_ne _ _ _ _ h.1]

/-- The cold-start attribute stored on a span at creation time. -/
def coldAttr (sp : SpanData ε) : Option AttrValue :=
  findAttr FAAS_COLDSTART sp.initialAttributes

/-- One fetch call always clears the process `cold_start` flag and appends
exactly one span whose creation-time attributes carry the old flag value. -/
theorem executeEntrypointFetch_state {ρ : Type}
    (gReq gCf : ρ → List Attr) (gResp : Response → List Attr)
    (fetchFn : ρ → Except ε Response) (request : ρ) (s : TraceState ε) :
    ∃ sp : SpanData ε,
      (executeEntrypointFetch gReq gCf gResp fetchFn request s).2
          = { cold_start := false, spans := s.spans ++ [sp] }
      ∧ sp.initialAttributes = assignAttrs (assignAttrs
          [(FAAS_TRIGGER, .str "http"), (FAAS_COLDSTART, .bool s.cold_start)]
          (gReq request)) (gCf request)
      ∧ sp.sealCount = 1 := by
  cases h : fetchFn request with
  | ok response =>
      refine ⟨{ name := "Entrypoint Fetch", kind := .server,
                initialAttributes := assignAttrs (assignAttrs
                  [(FAAS_TRIGGER, .str "http"), (FAAS_COLDSTART, .bool s.cold_start)]
                  (gReq request)) (gCf request),
                ops := (if response.ok then [SpanOp.setStatus .ok] else [])
                  ++ [SpanOp.setAttributes (gResp response), SpanOp.endSpan] },
             ?_, rfl, ?_⟩
      · cases hok : response.ok <;>
          simp [executeEntrypointFetch, h, hok, TraceState.pushSpan,
            SpanData.setStatus, SpanData.setAttributes, SpanData.endSpan]
      · cases hok : response.ok <;>
          simp [SpanData.sealCount, hok, List.countP_cons, List.countP_nil]
  | error e =>
      refine ⟨{ name := "Entrypoint Fetch", kind := .server,
                initialAttributes := assignAttrs (assignAttrs
                  [(FAAS_TRIGGER, .str "http"), (FAAS_COLDSTART, .bool s.cold_start)]
                  (gReq request)) (gCf request),
                ops := [SpanOp.recordException e, SpanOp.setStatus .error,
                        SpanOp.endSpan] }, ?_, rfl, ?_⟩
      · simp [executeEntrypointFetch, h, TraceState.pushSpan,
          SpanData.recordException, SpanData.setStatus, SpanData.endSpan]
      · simp [SpanData.sealCount, List.countP_cons, List.countP_nil]

/-- A sequence of inbound fetch calls through `executeEntrypointFetch`,
threading the process-wide state. -/
def runFetchSequence {ρ : Type}
    (gReq gCf : ρ → List Attr) (gResp : Response → List Attr)
    (calls : List ((ρ → Except ε Response) × ρ)) (s : TraceState ε) :
    TraceState ε :=
  calls.foldl (fun st c => (executeEntrypointFetch gReq gCf gResp c.1 c.2 st).2) s

/-- Expected cold-start attribute values for `n` calls starting from flag `b`. -/
def coldFlags : Bool → Nat → List (Option AttrValue)
  | _, 0 => []
  | b, n + 1 => some (.bool b) :: coldFlags false n

theorem coldFlags_false (n : Nat) :
    coldFlags false n = List.replicate n (some (.bool false)) := by
  induction n with
  | zero => rfl
  | succ n ih => simp [coldFlags, ih, List.replicate_succ]

theorem coldFlags_true (n : Nat) :
    coldFlags true n
      = (List.range n).map (fun i => some (AttrValue.bool (i == 0))) := by
  cases n with
  | zero => rfl
  | succ n =>
      have hcomp : ((fun i => some (AttrValue.bool (i == 0))) ∘ Nat.succ)
          = fun _ : Nat => some (AttrValue.bool false) := by
        funext i
        have : (Nat.succ i == 0) = false := by simp
        simp [Function.comp, this]
      rw [List.range_succ_eq_map, List.map_cons, List.map_map, hcomp,
        List.map_const', List.length_range]
      simp [coldFlags, coldFlags_false]

theorem runFetchSequence_coldAttrs {ρ : Type}
    (gReq gCf : ρ → List Attr) (gResp : Response → List Attr)
    (hReq : ∀ r, hasAttrKey (gReq r) FAAS_COLDSTART = false)
    (hCf : ∀ r, hasAttrKey (gCf r) FAAS_COLDSTART = false)
    (calls : List ((ρ → Except ε Response) × ρ)) :
    ∀ s : TraceState ε,
      (runFetchSequence gReq gCf gResp calls s).spans.map coldAttr
          = s.spans.map coldAttr ++ coldFlags s.cold_start calls.length
      ∧ (runFetchSequence gReq gCf gResp calls s).cold_start
          = (s.cold_start && calls.isEmpty) := by
  induction calls with
  | nil => intro s; simp [runFetchSequence, coldFlags]
  | cons c rest ih =>
      intro s
      obtain ⟨sp, hstate, hattrs, -⟩ :=
        executeEntrypointFetch_state gReq gCf gResp c.1 c.2 s
      have hcold : coldAttr sp = some (.bool s.cold_start) := by
        rw [coldAttr, hattrs, findAttr_assignAttrs _ _ _ (hCf c.2),
          findAttr_assignAttrs _ _ _ (hReq c.2)]
        simp [findAttr, FAAS_TRIGGER, FAAS_COLDSTART]
      have hstep : runFetchSequence gReq gCf gResp (c :: rest) s
          = runFetchSequence gReq gCf gResp rest
              { cold_start := false, spans := s.spans ++ [sp] } := by
        simp [runFetchSequence, hstate]
      obtain ⟨ih1, ih2⟩ := ih { cold_start := false, spans := s.spans ++ [sp] }
      constructor
      · rw [hstep, ih1]
        simp [hcold, coldFlags]
      · rw [hstep, ih2]
        simp

/-- C4: Across any sequence of inbound fetch calls within one process lifetime,
the cold-start attribute recorded on the span is true for exactly the first
call and false for every subsequent call; after any call the process-wide flag
stays false until process restart (a fresh `initialTraceState`). -/
theorem cold_start_first_call_only {ε ρ : Type}
    (gReq gCf : ρ → List Attr) (gResp : Response → List Attr)
    (calls : List ((ρ → Except ε Response) × ρ))
    (hReq : ∀ r, hasAttrKey (gReq r) FAAS_COLDSTART = false)
    (hCf : ∀ r, hasAttrKey (gCf r) FAAS_COLDSTART = false) :
    (runFetchSequence gReq gCf gResp calls initialTraceState).spans.map coldAttr
        = (List.range calls.length).map (fun i => some (AttrValue.bool (i == 0)))
    ∧ (calls ≠ [] →
        (runFetchSequence gReq gCf gResp calls initialTraceState).cold_start
          = false) := by
  obtain ⟨h1, h2⟩ :=
    runFetchSequence_coldAttrs gReq gCf gResp hReq hCf calls initialTraceState
  simp only [initialTraceState, List.map_nil, List.nil_append,
    Bool.true_and] at h1 h2
  simp only [initialTraceState]
  refine ⟨?_, ?_⟩
  · rw [h1, coldFlags_true]
  · intro hne
    rw [h2]
    cases calls with
    | nil => exact absurd rfl hne
    | cons c rest => rfl

/-- Closed witness for `cold_start_first_call_only`: two calls, the first
(successful) sees cold start `true`, the second (throwing) sees `false`. -/
theorem cold_start_first_call_only_witness :
    ((runFetchSequence (ε := String) (ρ := Unit)
        (fun _ => []) (fun _ => []) (fun _ => [])
        [(fun _ => .ok ⟨true, 200⟩, ()), (fun _ => .error "e", ())]
        initialTraceState).spans.map coldAttr
      = (List.range (List.length (α := (Unit → Except String Response) × Unit)
            [(fun _ => .ok ⟨true, 200⟩, ()), (fun _ => .error "e", ())])).map
          (fun i => some (AttrValue.bool (i == 0))))
    ∧ ([((fun _ => .ok ⟨true, 200⟩ : Unit → Except String Response), ()),
        (fun _ => .error "e", ())] ≠ [] →
        (runFetchSequence (ε := String) (ρ := Unit)
          (fun _ => []) (fun _ => []) (fun _ => [])
          [(fun _ => .ok ⟨true, 200⟩, ()), (fun _ => .error "e", ())]
          initialTraceState).cold_start = false) :=
  cold_start_first_call_only (fun _ => []) (fun _ => []) (fun _ => [])
    [(fun _ => .ok ⟨true, 200⟩, ()), (fun _ => .error "e", ())]
    (fun _ => rfl) (fun _ => rfl)

/-- The environment bindings handed to the initialiser
(`Record<string, unknown>` in the source). -/
abbrev Env := List (String × String)

/-- An OpenTelemetry context value: the root context, or a context carrying a
resolved configuration (`setConfig` stores the config on the active context).
`κ` is the type of resolved configurations. -/
inductive Context (κ : Type) where
  | root
  | withConfig (config : κ)
  deriving DecidableEq, Repr

/-- `setConfig(config)` of src/config.ts: derive a context holding `config`. -/
def setConfig {κ : Type} (config : κ) : Context κ :=
  .withConfig config

/-- The trigger argument passed to an `Initialiser`: either the inbound
request or a string tag such as "entrypoint-method". -/
inductive InitTrigger (ρ : Type) where
  | request (r : ρ)
  | string (s : String)
  deriving DecidableEq, Repr

/-- `Initialiser` of src/config.ts: resolves the activation configuration from
the environment and the trigger. -/
abbrev Initialiser (κ ρ : Type) := Env → InitTrigger ρ → κ

/-- `fn.name || 'anonymous'` (entrypoint.ts line 140). -/
def entrypointMethodName (name : String) : String :=
  if name = "" then "anonymous" else name

/-- JS `String.prototype.startsWith`, embedded on the character sequence. -/
def stringStartsWith (s p : String) : Bool :=
  p.data.isPrefixOf s.data

/-- `methodName.startsWith('#') || methodName.startsWith('_')`
(entrypoint.ts line 141): the internal-marker naming convention. -/
def isPrivateMethod (methodName : String) : Bool :=
  stringStartsWith methodName "#" || stringStartsWith methodName "_"

/-- The `apply` trap installed by `instrumentAnyFn` of entrypoint.ts
(lines 133-185): resolve the activation config, derive the ambient context;
private (internal-prefixed) methods run inside the context with no span, public
methods run through `executeEntrypointRpcMethod`.  The wrapped method `target`
receives the ambient context it runs under as its first argument. -/
def instrumentAnyFnApply {κ ρ υ : Type} (name : String)
    (target : Context κ → List υ → Except ε υ)
    (initialiser : Initialiser κ ρ) (env : Env) (argArray : List υ)
    (s : TraceState ε) : Except ε υ × TraceState ε :=
  let methodName := entrypointMethodName name
  let isPrivate := isPrivateMethod methodName
  let config := initialiser env (.string "entrypoint-method")
  let context := setConfig config
  if isPrivate then
    (target context argArray, s)
  else
    executeEntrypointRpcMethod (target context) methodName argArray s

/-- C5: For every wrapped method whose name begins with an internal-marker
prefix, the instrumented handler creates no span, the method body runs inside
the ambient context built from the resolved activation configuration, and the
method's return value or thrown error is exactly that of the original. -/
theorem instrumentAnyFn_private_no_span {ε κ ρ υ : Type} (name : String)
    (target : Context κ → List υ → Except ε υ)
    (initialiser : Initialiser κ ρ) (env : Env) (argArray : List υ)
    (s : TraceState ε)
    (h : isPrivateMethod (entrypointMethodName name) = true) :
    instrumentAnyFnApply name target initialiser env argArray s
      = (target (setConfig (initialiser env (.string "entrypoint-method")))
          argArray, s) := by
  simp [instrumentAnyFnApply, h]

/-- Closed witness for `instrumentAnyFn_private_no_span`: the method
"_internalHelper" returns its argument count and opens no span. -/
theorem instrumentAnyFn_private_no_span_witness :
    instrumentAnyFnApply (ε := String) (κ := Unit) (ρ := Unit) (υ := Nat)
        "_internalHelper" (fun _ args => .ok args.length)
        (fun _ _ => ()) [] [7] initialTraceState
      = (Except.ok 1, initialTraceState) :=
  instrumentAnyFn_private_no_span "_internalHelper"
    (fun _ args => .ok args.length) (fun _ _ => ()) [] [7]
    initialTraceState (by decide)

/-- C6: For every public-callable (non-internal-prefixed) method invoked
through the instrumented entrypoint handler, exactly one span is opened; its
name contains the method's identifier, and its attributes record the trigger
type, the method name, and the number of arguments passed. -/
theorem instrumentAnyFn_public_span {ε κ ρ υ : Type} (name : String)
    (target : Context κ → List υ → Except ε υ)
    (initialiser : Initialiser κ ρ) (env : Env) (argArray : List υ)
    (s : TraceState ε)
    (h : isPrivateMethod (entrypointMethodName name) = false) :
    ∃ sp : SpanData ε,
      (instrumentAnyFnApply name target initialiser env argArray s).2.spans
          = s.spans ++ [sp]
      ∧ (∃ pre suf, sp.name = pre ++ entrypointMethodName name ++ suf)
      ∧ findAttr FAAS_TRIGGER sp.initialAttributes = some (.str "other")
      ∧ findAttr "method.name" sp.initialAttributes
          = some (.str (entrypointMethodName name))
      ∧ findAttr "method.args_count" sp.initialAttributes
          = some (.nat argArray.length) := by
  have hattr :
      findAttr FAAS_TRIGGER
          [(FAAS_TRIGGER, AttrValue.str "other"),
           ("method.name", AttrValue.str (entrypointMethodName name)),
           ("method.args_count", AttrValue.nat argArray.length),
           ("rpc.method", AttrValue.str (entrypointMethodName name))]
          = some (.str "other")
      ∧ findAttr "method.name"
          [(FAAS_TRIGGER, AttrValue.str "other"),
           ("method.name", AttrValue.str (entrypointMethodName name)),
           ("method.args_count", AttrValue.nat argArray.length),
           ("rpc.method", AttrValue.str (entrypointMethodName name))]
          = some (.str (entrypointMethodName name))
      ∧ findAttr "method.args_count"
          [(FAAS_TRIGGER, AttrValue.str "other"),
           ("method.name", AttrValue.str (entrypointMethodName name)),
           ("method.args_count", AttrValue.nat argArray.length),
           ("rpc.method", AttrValue.str (entrypointMethodName name))]
          = some (.nat argArray.length) := by
    refine ⟨?_, ?_, ?_⟩ <;> simp [findAttr, FAAS_TRIGGER]
  cases hcall : target (setConfig (initialiser env (.string "entrypoint-method")))
      argArray with
  | ok result =>
      refine ⟨{ name := "RPC Method " ++ entrypointMethodName name,
                kind := .server,
                initialAttributes :=
                  [(FAAS_TRIGGER, .str "other"),
                   ("method.name", .str (entrypointMethodName name)),
                   ("method.args_count", .nat argArray.length),
                   ("rpc.method", .str (entrypointMethodName name))],
                ops := [SpanOp.setStatus .ok, SpanOp.endSpan] },
             ?_, ⟨"RPC Method ", "", by simp⟩, hattr.1, hattr.2.1, hattr.2.2⟩
      simp [instrumentAnyFnApply, h, executeEntrypointRpcMethod, hcall,
        TraceState.pushSpan, SpanData.setStatus, SpanData.endSpan]
  | error e =>
      refine ⟨{ name := "RPC Method " ++ entrypointMethodName name,
                kind := .server,
                initialAttributes :=
                  [(FAAS_TRIGGER, .str "other"),
                   ("method.name", .str (entrypointMethodName name)),
                   ("method.args_count", .nat argArray.length),
                   ("rpc.method", .str (entrypointMethodName name))],
                ops := [SpanOp.recordException e, SpanOp.setStatus .error,
                        SpanOp.endSpan] },
             ?_, ⟨"RPC Method ", "", by simp⟩, hattr.1, hattr.2.1, hattr.2.2⟩
      simp [instrumentAnyFnApply, h, executeEntrypointRpcMethod, hcall,
        TraceState.pushSpan, SpanData.recordException, SpanData.setStatus,
        SpanData.endSpan]

/-- Closed witness for `instrumentAnyFn_public_span`: the public method
"getUser" called with two arguments. -/
theorem instrumentAnyFn_public_span_witness :
    ∃ sp : SpanData String,
      (instrumentAnyFnApply (ε := String) (κ := Unit) (ρ := Unit)
          (υ := Nat) "getUser" (fun _ _ => .ok 0) (fun _ _ => ())
          [] [1, 2] initialTraceState).2.spans
          = (initialTraceState (ε := String)).spans ++ [sp]
      ∧ (∃ pre suf, sp.name = pre ++ entrypointMethodName "getUser" ++ suf)
      ∧ findAttr FAAS_TRIGGER sp.initialAttributes = some (.str "other")
      ∧ findAttr "method.name" sp.initialAttributes
          = some (.str (entrypointMethodName "getUser"))
      ∧ findAttr "method.args_count" sp.initialAttributes
          = some (.nat (List.length [1, 2])) :=
  instrumentAnyFn_public_span "getUser" (fun _ _ => .ok 0) (fun _ _ => ())
    [] [1, 2] initialTraceState (by decide)

namespace RpcTarget

/-- The `apply` trap installed by `instrumentAnyFn` of rpc-target.ts
(lines 8-24): resolve the activation config, derive the ambient context, and
run the original method inside it.  No span is created and the method name is
never inspected (the `name` parameter is carried only to mirror `fn.name`). -/
def instrumentAnyFnApply {κ ρ υ : Type} (name : String)
    (target : Context κ → List υ → Except ε υ)
    (initialiser : Initialiser κ ρ) (env : Env) (argArray : List υ)
    (s : TraceState ε) : Except ε υ × TraceState ε :=
  let _ := name
  let config := initialiser env (.string "entrypoint-method")
  let context := setConfig config
  (target context argArray, s)

/-- The `get` trap of `instrumentRpcTarget` (rpc-target.ts lines 26-38) for a
function-valued member: it is wrapped via `instrumentAnyFn` with the empty
environment `{}`. -/
def instrumentRpcTargetMethod {κ ρ υ : Type} (name : String)
    (method : Context κ → List υ → Except ε υ)
    (initialiser : Initialiser κ ρ) (argArray : List υ)
    (s : TraceState ε) : Except ε υ × TraceState ε :=
  instrumentAnyFnApply name method initialiser [] argArray s

end RpcTarget

/-- C10: Methods invoked through the instrumented RPC-callable target never
open a span — whatever the method's name, internal-marker prefix or not — and
run inside the context derived from configuration resolved against an empty
environment; only the non-RPC entrypoint wrapping classifies methods into
span-creating (public) and span-free (internal) calls. -/
theorem rpcTarget_method_no_span {ε κ ρ υ : Type} (name : String)
    (method : Context κ → List υ → Except ε υ)
    (initialiser : Initialiser κ ρ) (argArray : List υ)
    (s : TraceState ε) :
    RpcTarget.instrumentRpcTargetMethod name method initialiser argArray s
        = (method (setConfig (initialiser [] (.string "entrypoint-method")))
            argArray, s)
    ∧ (∀ (name' : String)
        (target : Context κ → List υ → Except ε υ) (env : Env),
        (instrumentAnyFnApply name' target initialiser env argArray s).2.spans.length
          = s.spans.length
            + (if isPrivateMethod (entrypointMethodName name') then 0 else 1)) := by
  refine ⟨rfl, ?_⟩
  intro name' target env
  by_cases hp : isPrivateMethod (entrypointMethodName name') = true
  · simp [instrumentAnyFnApply, hp]
  · rw [Bool.not_eq_true] at hp
    cases hcall : target (setConfig (initialiser env (.string "entrypoint-method")))
        argArray with
    | ok result =>
        simp [instrumentAnyFnApply, hp, executeEntrypointRpcMethod, hcall,
          TraceState.pushSpan]
    | error e =>
        simp [instrumentAnyFnApply, hp, executeEntrypointRpcMethod, hcall,
          TraceState.pushSpan]

/-- Modelled from the spec: the proxy helpers `wrap`/`unwrap` of src/wrap.ts
are not under src/.  Per spec §3 (InstrumentedHandler) "double-wrapping is
avoided — wrapping an already-instrumented handler must be idempotent or
explicitly guarded against".  A fetch handler value is therefore either a
plain function or an instrumented proxy remembering the original function plus
the handler data captured by `instrumentFetchFn`; wrapping an
already-instrumented value returns it unchanged. -/
inductive FetchVal (ε κ ρ : Type) where
  | plain (fetchFn : Context κ → ρ → Except ε Response)
  | instrumented (fetchFn : Context κ → ρ → Except ε Response)
      (initialiser : Initialiser κ ρ) (env : Env)

/-- `instrumentFetchFn` (entrypoint.ts lines 106-131):
`wrap(fetchFn, fetchHandler)`, with the already-wrapped guard of `wrap`. -/
def instrumentFetchFn {κ ρ : Type} (fetchFn : FetchVal ε κ ρ)
    (initialiser : Initialiser κ ρ) (env : Env) : FetchVal ε κ ρ :=
  match fetchFn with
  | .plain f => .instrumented f initialiser env
  | .instrumented f i e => .instrumented f i e

/-- Calling a possibly-wrapped fetch handler.  A plain function runs under the
root context; an instrumented one runs the `apply` trap of `instrumentFetchFn`
(entrypoint.ts lines 109-128): resolve the config from the request, derive the
ambient context, and run `executeEntrypointFetch` inside it. -/
def invokeFetchVal {κ ρ : Type}
    (gReq gCf : ρ → List Attr) (gResp : Response → List Attr)
    (v : FetchVal ε κ ρ) (request : ρ) (s : TraceState ε) :
    Except ε Response × TraceState ε :=
  match v with
  | .plain f => (f .root request, s)
  | .instrumented f initialiser env =>
      let config := initialiser env (.request request)
      let context := setConfig config
      executeEntrypointFetch gReq gCf gResp (f context) request s

/-- Modelled from the spec: an entrypoint class value, either plain or the
instrumented stand-in produced by `instrumentEntrypointClass`;
`wrap` (src/wrap.ts, not under src/) returns an already-instrumented class
unchanged.  `σ` is the type of the underlying class value. -/
inductive ClassVal (σ κ ρ : Type) where
  | plain (cls : σ)
  | instrumented (cls : σ) (initialiser : Initialiser κ ρ)

/-- `instrumentEntrypointClass` (entrypoint.ts lines 223-252):
`wrap(entrypointClass, classHandler)`, with the already-wrapped guard. -/
def instrumentEntrypointClass {σ κ ρ : Type} (entrypointClass : ClassVal σ κ ρ)
    (initialiser : Initialiser κ ρ) : ClassVal σ κ ρ :=
  match entrypointClass with
  | .plain cls => .instrumented cls initialiser
  | .instrumented cls i => .instrumented cls i

/-- C3: Wrapping an already-instrumented handler a second time is idempotent:
the doubly-wrapped fetch function and entrypoint class equal the singly-wrapped
ones, and each call through the doubly-wrapped fetch handler still opens
exactly one span and seals it exactly once, never two. -/
theorem doubleWrap_idempotent {ε σ κ ρ : Type}
    (gReq gCf : ρ → List Attr) (gResp : Response → List Attr)
    (f : Context κ → ρ → Except ε Response)
    (i e : Initialiser κ ρ) (env env' : Env)
    (cls : ClassVal σ κ ρ) (ci ci' : Initialiser κ ρ)
    (request : ρ) (s : TraceState ε) :
    instrumentFetchFn (instrumentFetchFn (.plain f) i env) e env'
        = instrumentFetchFn (.plain f) i env
    ∧ instrumentEntrypointClass (instrumentEntrypointClass cls ci) ci'
        = instrumentEntrypointClass cls ci
    ∧ ∃ sp : SpanData ε,
        (invokeFetchVal gReq gCf gResp
            (instrumentFetchFn (instrumentFetchFn (.plain f) i env) e env')
            request s).2.spans
          = s.spans ++ [sp]
        ∧ sp.sealCount = 1 := by
  refine ⟨rfl, ?_, ?_⟩
  · cases cls <;> rfl
  · obtain ⟨sp, hstate, -, hseal⟩ := executeEntrypointFetch_state gReq gCf gResp
      (f (setConfig (i env (.request request)))) request s
    exact ⟨sp, by simp [invokeFetchVal, instrumentFetchFn, hstate], hseal⟩

/-- Modelled from the spec: the metric aggregator behind `OnDemandMetricReader`
(src/metricreader.ts is not under src/, only its tests are).  Spec §4.4 / §6:
the aggregator exposes counter instruments and a collection operation returning
the current batch; collection "also resets the aggregator's internal
accumulation for the next cycle".  Counter values accumulate per instrument
name. -/
structure Aggregator where
  accum : List (String × Nat)
  deriving DecidableEq, Repr

/-- A `MetricBatch`: the snapshot of all data recorded since last collection. -/
abbrev MetricBatch := List (String × Nat)

/-- Add `n` to the accumulated total of instrument `name`. -/
def addToAccum : List (String × Nat) → String → Nat → List (String × Nat)
  | [], name, n => [(name, n)]
  | (k, v) :: rest, name, n =>
      if k = name then (k, v + n) :: rest else (k, v) :: addToAccum rest name n

/-- `counter.add(n)` on the shared aggregator. -/
def Aggregator.add (a : Aggregator) (name : String) (n : Nat) : Aggregator :=
  ⟨addToAccum a.accum name n⟩

/-- The aggregator at process start: nothing recorded. -/
def Aggregator.empty : Aggregator := ⟨[]⟩

/-- Collection: return the current batch and reset accumulation. -/
def Aggregator.collect (a : Aggregator) : MetricBatch × Aggregator :=
  (a.accum, ⟨[]⟩)

/-- `ExportOutcome` (spec §3): success, or failure optionally carrying a
cause, reported asynchronously by the export sink. -/
inductive ExportOutcome where
  | success
  | failure (cause : Option String)
  deriving DecidableEq, Repr

/-- The generic cause used when the sink reports failure without one. -/
def exportFailedCause : String := "export failed"

namespace OnDemandMetricReader

/-- Modelled from the spec: `OnDemandMetricReader.forceFlush`
(src/metricreader.ts is not under src/).  Spec §4.4: ask the aggregator for the
current batch (resetting accumulation), hand the whole batch to the export
sink, await its completion signal, and resolve successfully only on a success
outcome — otherwise fail with the sink-reported cause, defaulting to a generic
"export failed" cause.  Returns the flush result, the batch handed to the
sink, and the aggregator left for the next cycle. -/
def forceFlush (sink : MetricBatch → ExportOutcome) (a : Aggregator) :
    Except String Unit × MetricBatch × Aggregator :=
  let collected := a.collect
  let batch := collected.1
  let result : Except String Unit :=
    match sink batch with
    | .success => .ok ()
    | .failure (some cause) => .error cause
    | .failure none => .error exportFailedCause
  (result, batch, collected.2)

end OnDemandMetricReader

/-- C7: Each flush exports an independent batch covering only the data
recorded since the previous flush: incrementing counter "c" by `n` and
flushing, then incrementing by `m` and flushing, the second exported batch
holds only `m`, not `n + m`; collection always leaves an empty accumulation
behind. -/
theorem flush_resets_accumulation (sink : MetricBatch → ExportOutcome)
    (n m : Nat) :
    (OnDemandMetricReader.forceFlush sink (Aggregator.empty.add "c" n)).2.1
        = [("c", n)]
    ∧ (OnDemandMetricReader.forceFlush sink
        (((OnDemandMetricReader.forceFlush sink
            (Aggregator.empty.add "c" n)).2.2).add "c" m)).2.1
        = [("c", m)]
    ∧ (∀ a : Aggregator,
        (OnDemandMetricReader.forceFlush sink a).2.2 = Aggregator.empty) :=
  ⟨rfl, rfl, fun _ => rfl⟩

/-- C8: The flush resolves successfully exactly when the sink reports success;
a failure with a cause makes the flush fail with that exact cause, and a
failure without one falls back to the generic "export failed" cause. -/
theorem flush_propagates_sink_outcome (sink : MetricBatch → ExportOutcome)
    (a : Aggregator) :
    ((OnDemandMetricReader.forceFlush sink a).1 = .ok ()
        ↔ sink a.accum = .success)
    ∧ (∀ cause, sink a.accum = .failure (some cause) →
        (OnDemandMetricReader.forceFlush sink a).1 = .error cause)
    ∧ (sink a.accum = .failure none →
        (OnDemandMetricReader.forceFlush sink a).1 = .error exportFailedCause) := by
  refine ⟨⟨fun h => ?_, fun h => ?_⟩, fun cause h => ?_, fun h => ?_⟩ <;>
    first
      | simp [OnDemandMetricReader.forceFlush, Aggregator.collect, h]
      | (cases hsink : sink a.accum with
          | success => rfl
          | failure cause? =>
              cases cause? <;>
                simp [OnDemandMetricReader.forceFlush, Aggregator.collect,
                  hsink] at h)

/-- Closed witness for `flush_propagates_sink_outcome`: a sink failing with
cause "network down" makes the flush fail with exactly that cause. -/
theorem flush_propagates_sink_outcome_witness :
    (OnDemandMetricReader.forceFlush (fun _ => .failure (some "network down"))
        (Aggregator.empty.add "c" 1)).1 = .error "network down" :=
  (flush_propagates_sink_outcome (fun _ => .failure (some "network down"))
      (Aggregator.empty.add "c" 1)).2.1 "network down" rfl

/-- The `service` block of a user-supplied `TraceConfig`
(name, optional namespace, optional version). -/
structure ServiceConfig where
  name : String
  «namespace» : Option String
  version : Option String
  deriving DecidableEq, Repr

/-- The caller-supplied metrics settings: the metric exporter to use.
`β` is the type of metric exporter objects. -/
structure MetricsConfig (β : Type) where
  exporter : β
  deriving DecidableEq, Repr

/-- A user-supplied `TraceConfig`: service identity, span exporter, and
optional metrics settings.  `α` is the type of span exporter objects. -/
structure TraceConfig (α β : Type) where
  service : ServiceConfig
  exporter : α
  metrics : Option (MetricsConfig β)
  deriving DecidableEq, Repr

/-- A span processor wrapping the configured span exporter. -/
inductive SpanProcessor (α : Type) where
  | batch (exporter : α)
  deriving DecidableEq, Repr

/-- The resolved configuration produced by `parseConfig`. -/
structure ResolvedTraceConfig (α β : Type) where
  service : ServiceConfig
  spanProcessors : List (SpanProcessor α)
  metrics : Option (MetricsConfig β)
  deriving DecidableEq, Repr

/-- Modelled from the spec: `parseConfig` of src/config.ts is not under src/
(only its test is).  Spec §6: "`resolveConfig(userConfig) -> resolvedConfig`
merging exporter/service/metrics settings, with metrics left unset when the
caller supplies none"; the test additionally pins that the service block and
the metrics exporter pass through unchanged and that the exporter is wrapped
into exactly one span processor. -/
def parseConfig {α β : Type} (config : TraceConfig α β) :
    ResolvedTraceConfig α β :=
  { service := config.service
    spanProcessors := [.batch config.exporter]
    metrics := config.metrics }

/-- C9: `parseConfig` passes the metrics settings through unchanged when
supplied and leaves the resolved `metrics` field unset when the caller supplies
none; the service name, namespace, version and the exporter (wrapped as the
single span processor) are all preserved. -/
theorem parseConfig_merges_settings {α β : Type}
    (config : TraceConfig α β) :
    (parseConfig config).metrics = config.metrics
    ∧ (config.metrics = none → (parseConfig config).metrics = none)
    ∧ (parseConfig config).service.name = config.service.name
    ∧ (parseConfig config).service.«namespace» = config.service.«namespace»
    ∧ (parseConfig config).service.version = config.service.version
    ∧ (parseConfig config).spanProcessors = [.batch config.exporter] :=
  ⟨rfl, fun h => h, rfl, rfl, rfl, rfl⟩

/-- Closed witness for `parseConfig_merges_settings`: a config without a
metrics block resolves with `metrics` unset, one with a metrics block passes
the metric exporter through, and service fields and processor survive. -/
theorem parseConfig_merges_settings_witness :
    (parseConfig (α := String) (β := String)
        { service := { name := "my-service", «namespace» := some "prod",
                       version := some "1.0.0" },
          exporter := "span-exporter", metrics := none }).metrics = none
    ∧ (parseConfig (α := String) (β := String)
        { service := { name := "test-worker", «namespace» := none,
                       version := none },
          exporter := "span-exporter",
          metrics := some { exporter := "metric-exporter" } }).metrics
      = some { exporter := "metric-exporter" }
    ∧ (parseConfig (α := String) (β := String)
        { service := { name := "my-service", «namespace» := some "prod",
                       version := some "1.0.0" },
          exporter := "span-exporter", metrics := none }).service.name
      = "my-service"
    ∧ (parseConfig (α := String) (β := String)
        { service := { name := "my-service", «namespace» := some "prod",
                       version := some "1.0.0" },
          exporter := "span-exporter", metrics := none }).spanProcessors
      = [.batch "span-exporter"] :=
  ⟨(parseConfig_merges_settings
      { service := { name := "my-service", «namespace» := some "prod",
                     version := some "1.0.0" },
        exporter := "span-exporter", metrics := none }).2.1 rfl,
   (parseConfig_merges_settings
      { service := { name := "test-worker", «namespace» := none,
                     version := none },
        exporter := "span-exporter",
        metrics := some { exporter := "metric-exporter" } }).1,
   (parseConfig_merges_settings
      { service := { name := "my-service", «namespace» := some "prod",
                     version := some "1.0.0" },
        exporter := "span-exporter", metrics := none }).2.2.1,
   (parseConfig_merges_settings
      { service := { name := "my-service", «namespace» := some "prod",
                     version := some "1.0.0" },
        exporter := "span-exporter", metrics := none }).2.2.2.2.2⟩
